import Mathlib

/-!
Shallow embedding of the chutesai/sek8s control plane, together with
theorems settling the frozen claims about its specification.

Each definition mirrors one Python function of the repository; machine
behaviour of the Python runtime (truthiness, string methods, exception
flow) is made explicit.  Crypto primitives (SR25519 verification) are
abstracted as boolean-valued parameters.
-/

namespace Sek8s

/-- Python `str.strip` whitespace test, restricted to the ASCII whitespace
characters (space, tab, newline, carriage return, vertical tab, form feed);
non-ASCII unicode whitespace is not modelled, no claim depends on it. -/
def pyWhitespace (c : Char) : Bool :=
  c == ' ' || c == '\t' || c == '\n' || c == '\r' ||
    c == Char.ofNat 11 || c == Char.ofNat 12

/-- Python `str.strip()` on a character list: drop whitespace from both ends. -/
def pyStripL (cs : List Char) : List Char :=
  ((cs.dropWhile pyWhitespace).reverse.dropWhile pyWhitespace).reverse

/-- Python `str.strip()`. -/
def pyStrip (s : String) : String :=
  ⟨pyStripL s.data⟩

/-- Decimal digit value of a character, if it is one of `0`..`9`. -/
def decDigit (c : Char) : Option Nat :=
  if c.isDigit then some (c.toNat - 48) else none

/-- Digit tail of Python `int(str)`: after a first digit, each further
character is either a digit or a single underscore followed by a digit
(CPython allows `1_000` but rejects leading, trailing or doubled
underscores). -/
def pyDigitsAux (acc : Nat) : List Char → Option Nat
  | [] => some acc
  | '_' :: rest =>
    match rest with
    | [] => none
    | c :: cs =>
      match decDigit c with
      | some d => pyDigitsAux (10 * acc + d) cs
      | none => none
  | c :: cs =>
    match decDigit c with
    | some d => pyDigitsAux (10 * acc + d) cs
    | none => none

/-- Nonempty digit run of Python `int(str)`; the first character must be a
digit. -/
def pyDigits : List Char → Option Nat
  | [] => none
  | c :: cs =>
    match decDigit c with
    | some d => pyDigitsAux d cs
    | none => none

/-- Python `int(str)` for decimal strings: strip whitespace, allow one
leading sign, then a nonempty digit run; anything else raises `ValueError`,
modelled as `none`. -/
def pyParseInt (s : String) : Option Int :=
  match pyStripL s.data with
  | '+' :: rest => (pyDigits rest).map Int.ofNat
  | '-' :: rest => (pyDigits rest).map (fun n => -(n : Int))
  | rest => (pyDigits rest).map Int.ofNat

/-- Value of a hexadecimal digit character, upper or lower case. -/
def hexDigitVal (c : Char) : Option Nat :=
  if c.isDigit then some (c.toNat - 48)
  else if 'a' ≤ c && c ≤ 'f' then some (c.toNat - 97 + 10)
  else if 'A' ≤ c && c ≤ 'F' then some (c.toNat - 65 + 10)
  else none

/-- Whether a character is a hexadecimal digit (`[a-fA-F0-9]`). -/
def isHexChar (c : Char) : Bool :=
  (hexDigitVal c).isSome

/-- Pair up hex digits into byte values; an odd count or a non-hex digit is
a failure. -/
def hexPairs : List Char → Option (List Nat)
  | [] => some []
  | [_] => none
  | c₁ :: c₂ :: cs =>
    match hexDigitVal c₁, hexDigitVal c₂ with
    | some h, some l => (hexPairs cs).map (fun bs => (16 * h + l) :: bs)
    | _, _ => none

/-- Python `bytes.fromhex`: spaces between bytes are ignored, then the hex
digits are consumed two at a time; any other character, or an odd digit
count, raises `ValueError`, modelled as `none`. -/
def bytesFromHex (s : String) : Option (List Nat) :=
  hexPairs (s.data.filter (fun c => c ≠ ' '))

/-- Lowercase hex digit for a value below 16, as produced by Python
`bytes.hex()`. -/
def hexChar (n : Nat) : Char :=
  if n < 10 then Char.ofNat (48 + n) else Char.ofNat (87 + n)

/-- Two lowercase hex characters of one byte value. -/
def byteHexChars (b : Nat) : List Char :=
  [hexChar (b / 16), hexChar (b % 16)]

/-- Python `bytes.hex()`: lowercase hex encoding of a byte list. -/
def hexEncodeBytes (bs : List Nat) : String :=
  ⟨bs.flatMap byteHexChars⟩

/-- Python `str.ljust(width, fill)`: right-pad to the requested width. -/
def ljustStr (s : String) (width : Nat) (fill : Char) : String :=
  if width ≤ s.length then s
  else s ++ ⟨List.replicate (width - s.length) fill⟩

/-- Python `str.encode("utf-8")` as a byte-value list. -/
def utf8Bytes (s : String) : List Nat :=
  (s.data.flatMap String.utf8EncodeChar).map UInt8.toNat

/-- Python `str.startswith(p)`, modelled on the character lists. -/
def pyStartsWith (s p : String) : Bool :=
  p.data.isPrefixOf s.data

end Sek8s

namespace Sek8s.NvEvidenceUtil

/-- Embedding of `validate_and_format_nonce`
(src/nvevidence/chutes_nvevidence/util.py): strip the input, reject the
empty string and strings over 32 characters (the error messages carried by
`NonceError` are summarised by the tag strings below), otherwise hex-encode
the UTF-8 bytes and right-pad the hex string with the zero digit to 64
characters. -/
def validate_and_format_nonce (nonce : String) : Except String String :=
  let nonce := pyStrip nonce
  if 32 < nonce.length then
    .error ("Nonce too long: " ++ toString nonce.length ++
      " characters (max 32). Nonce: " ++ nonce)
  else if nonce.length = 0 then
    .error "Nonce cannot be empty"
  else
    .ok (ljustStr (hexEncodeBytes (utf8Bytes nonce)) 64 '0')

end Sek8s.NvEvidenceUtil

namespace Sek8s.Gpu

/-- Python `str.replace(pattern, "")` for a nonempty pattern `p :: ps`:
left-to-right scan deleting every non-overlapping occurrence. -/
def replaceDropAux (p : Char) (ps : List Char) : List Char → List Char
  | [] => []
  | c :: cs =>
    if (p :: ps).isPrefixOf (c :: cs) then
      replaceDropAux p ps (cs.drop ps.length)
    else
      c :: replaceDropAux p ps cs
termination_by s => s.length
decreasing_by
  · simp only [List.length_drop, List.length_cons]
    omega
  · simp only [List.length_cons]
    omega

/-- Python `str.replace(pattern, "")` on strings (pattern given as first
character plus rest, so it is never empty). -/
def replaceDrop (p : Char) (ps : List Char) (s : String) : String :=
  ⟨replaceDropAux p ps s.data⟩

/-- Embedding of `sanitize_gpu_id` (src/sek8s/providers/gpu.py): delete the
exact substrings `GPU-` and `gpu-`, then delete every hyphen. -/
def sanitize_gpu_id (gpu_id : String) : String :=
  let sanitized := replaceDrop 'g' ['p', 'u', '-'] (replaceDrop 'G' ['P', 'U', '-'] gpu_id)
  replaceDrop '-' [] sanitized

end Sek8s.Gpu

namespace Sek8s.CloudInit

/-- A cloud-init `write_files` entry content value as seen by the Python
validators: either a string or some non-string YAML value (the validators
only inspect `isinstance(content, str)` beyond the string case). -/
inductive CIContent where
  | str (s : String)
  | notStr
deriving DecidableEq

/-- The base58 alphabet used by `validate_ss58_address`. -/
def ss58Chars : List Char :=
  "123456789ABCDEFGHJKLMNPQRSTUVWXYZabcdefghijkmnopqrstuvwxyz".data

/-- Embedding of `validate_ss58_address`
(src/ansible/k3s/roles/harden-cloud-init/files/validate-cloud-init.py),
acceptance component only (the human-readable reason strings of the
returned pair are not modelled): require a string, strip it, require
length in 40..50, every character in the base58 alphabet, and a leading
`5`. -/
def validate_ss58_address (address : CIContent) : Bool :=
  match address with
  | .notStr => false
  | .str a =>
    let a := pyStrip a
    if a.length < 40 || 50 < a.length then false
    else if ¬ (a.data.all (fun c => ss58Chars.contains c)) then false
    else if ¬ (pyStartsWith a "5") then false
    else true

/-- Embedding of `validate_seed_content` (same file), acceptance component
only: require a string, strip it, reject a leading `0x`/`0X`, require
length exactly 64 and the regex `[a-fA-F0-9]+` over the whole stripped
string (the stripped string never ends in a newline, so the Python
`re.match` dollar-anchor subtlety cannot arise). -/
def validate_seed_content (seed : CIContent) : Bool :=
  match seed with
  | .notStr => false
  | .str s =>
    let s := pyStrip s
    if pyStartsWith s "0x" || pyStartsWith s "0X" then false
    else if ¬ (s.length = 64) then false
    else if ¬ (¬ s.data.isEmpty && s.data.all isHexChar) then false
    else true

end Sek8s.CloudInit

namespace Sek8s.Opa

/-- Python values flowing through the OPA result walk: `None`, strings,
lists and string-keyed dicts cover everything `json.loads` produces that
the walk inspects. -/
inductive PyVal where
  | none
  | str (s : String)
  | list (xs : List PyVal)
  | dict (fields : List (String × PyVal))

/-- Python exceptions raised during the per-policy walk; all are caught by
the same `except Exception` handler, so only their existence matters. -/
inductive PyErr where
  | typeError
  | keyError
  | attributeError
  | jsonError
deriving DecidableEq

/-- Python truthiness of a value. -/
def pyTruthy : PyVal → Bool
  | .none => false
  | .str s => s ≠ ""
  | .list xs => ¬ xs.isEmpty
  | .dict fs => ¬ fs.isEmpty

/-- Python `value.get(key, default)`: defined on dicts, `AttributeError`
on anything else. -/
def pyGetD (v : PyVal) (key : String) (dflt : PyVal) : Except PyErr PyVal :=
  match v with
  | .dict fs => .ok ((fs.lookup key).getD dflt)
  | _ => .error .attributeError

/-- Python `value[key]` for a string key: lookup on dicts (`KeyError` when
missing), `TypeError` on strings, lists and `None`. -/
def pySubscript (v : PyVal) (key : String) : Except PyErr PyVal :=
  match v with
  | .dict fs =>
    match fs.lookup key with
    | some x => .ok x
    | Option.none => .error .keyError
  | _ => .error .typeError

/-- Python `for x in value`: lists yield elements, strings yield one-character
strings, dicts yield their keys, `None` raises `TypeError`. -/
def pyIter : PyVal → Except PyErr (List PyVal)
  | .list xs => .ok xs
  | .str s => .ok (s.data.map (fun c => .str ⟨[c]⟩))
  | .dict fs => .ok (fs.map (fun p => .str p.1))
  | .none => .error .typeError

/-- Outcome of one external `opa eval` child process for one policy file:
exit code, the parse of its stdout (`Option.none` when the stdout is not
JSON), and its stderr text. -/
structure OpaOutcome where
  returncode : Int
  stdoutJson : Option PyVal
  stderr : String

/-- Embedding of `OPAPolicyEngine._evaluate_single_policy` (src/sek8s/opa.py):
on exit code 0 return `json.loads(stdout)` (a JSON parse failure raises),
otherwise return the synthetic value
`{"result": ["Policy evaluation failed: " + stderr]}`. -/
def evaluateSinglePolicy (o : OpaOutcome) : Except PyErr PyVal :=
  if o.returncode = 0 then
    match o.stdoutJson with
    | some v => .ok v
    | Option.none => .error .jsonError
  else
    .ok (.dict [("result", .list [.str ("Policy evaluation failed: " ++ o.stderr)])])

/-- Innermost loop body of `evaluate_policies`: a dict entry carrying `msg`
contributes that value, a plain string contributes itself, anything else is
skipped. -/
def walkViolation (acc : List PyVal) (violation : PyVal) : List PyVal :=
  match violation with
  | .dict fs =>
    match fs.lookup "msg" with
    | some m => acc ++ [m]
    | Option.none => acc
  | .str s => acc ++ [.str s]
  | _ => acc

/-- Left fold that stops at the first raised exception, keeping the
violations already appended (Python mutates the shared list in place). -/
def foldStop (f : List PyVal → PyVal → List PyVal × Option PyErr) :
    List PyVal → List PyVal → List PyVal × Option PyErr
  | acc, [] => (acc, Option.none)
  | acc, x :: xs =>
    match f acc x with
    | (acc₂, Option.none) => foldStop f acc₂ xs
    | (acc₂, some e) => (acc₂, some e)

/-- Middle loop of `evaluate_policies`: `for violation in expression["value"]`. -/
def walkExpression (acc : List PyVal) (expression : PyVal) :
    List PyVal × Option PyErr :=
  match pySubscript expression "value" with
  | .error e => (acc, some e)
  | .ok v =>
    match pyIter v with
    | .error e => (acc, some e)
    | .ok items => (items.foldl walkViolation acc, Option.none)

/-- Outer loop of `evaluate_policies`:
`for expression in _result["expressions"]`. -/
def walkResult (acc : List PyVal) (res : PyVal) : List PyVal × Option PyErr :=
  match pySubscript res "expressions" with
  | .error e => (acc, some e)
  | .ok exps =>
    match pyIter exps with
    | .error e => (acc, some e)
    | .ok items => foldStop walkExpression acc items

/-- The `try` body of `evaluate_policies` for one policy file: evaluate the
file, and when `result and result.get("result")` is truthy walk
`result["result"]`, accumulating violations until an exception is raised. -/
def evalPolicyBody (o : OpaOutcome) (acc : List PyVal) :
    List PyVal × Option PyErr :=
  match evaluateSinglePolicy o with
  | .error e => (acc, some e)
  | .ok result =>
    if pyTruthy result = false then (acc, Option.none)
    else
      match pyGetD result "result" .none with
      | .error e => (acc, some e)
      | .ok got =>
        if pyTruthy got = false then (acc, Option.none)
        else
          match pySubscript result "result" with
          | .error e => (acc, some e)
          | .ok rs =>
            match pyIter rs with
            | .error e => (acc, some e)
            | .ok items => foldStop walkResult acc items

/-- One iteration of `evaluate_policies`: run the `try` body; any exception
is caught and turns into one appended violation
`Policy evaluation error in <file name>`, after the violations already
appended. -/
def evalPolicyFile (acc : List PyVal) (file : String × OpaOutcome) : List PyVal :=
  match evalPolicyBody file.2 acc with
  | (acc₂, Option.none) => acc₂
  | (acc₂, some _) => acc₂ ++ [.str ("Policy evaluation error in " ++ file.1)]

/-- Embedding of `OPAPolicyEngine.evaluate_policies` (src/sek8s/opa.py):
the policy directory is abstracted as the list of `*.rego` files it
contains, each paired with the outcome of its `opa eval` child process for
the admission request under evaluation. -/
def evaluate_policies (files : List (String × OpaOutcome)) : List PyVal :=
  files.foldl evalPolicyFile []

end Sek8s.Opa

namespace Sek8s.Admission

open Sek8s.Opa

/-- The admission review response built by `AdmissionController.validate_request`
(src/sek8s/admission/admission_controller.py); `message` is `Except` so a
joined violation list containing a non-string raises as in Python. -/
structure AdmissionResponse where
  apiVersion : String
  kind : String
  uid : PyVal
  allowed : Bool
  message : Except PyErr String

/-- Python `"; ".join(strings)`: `TypeError` when some element is not a
string. -/
def pyJoin (sep : String) : List PyVal → Except PyErr String
  | [] => .ok ""
  | [.str s] => .ok s
  | .str s :: rest => (pyJoin sep rest).map (fun t => s ++ sep ++ t)
  | _ => .error .typeError

/-- Embedding of `AdmissionController.validate_request`: extract `request`
(default `{}`), evaluate the policies, allow exactly when no violations,
echo `uid`, and set the status message to the joined violations or the
literal `Allowed`. -/
def validate_request (files : List (String × OpaOutcome)) (review : PyVal) :
    Except PyErr (Bool × AdmissionResponse) :=
  match pyGetD review "request" (.dict []) with
  | .error e => .error e
  | .ok request =>
    let violations := evaluate_policies files
    let allowed := violations.isEmpty
    match pyGetD request "uid" .none with
    | .error e => .error e
    | .ok uid =>
      .ok (allowed,
        { apiVersion := "admission.k8s.io/v1"
          kind := "AdmissionReview"
          uid := uid
          allowed := allowed
          message := if violations.isEmpty then .ok "Allowed" else pyJoin "; " violations })

end Sek8s.Admission

namespace Sek8s.WebServer

/-- The fields of `ServerConfig` that `WebServer.run` reads
(src/sek8s/server.py); optional strings model Python `None`. -/
structure ServerConfig where
  uds_path : Option String
  bind_address : String
  port : Nat
  tls_cert_path : Option String
  tls_key_path : Option String
  debug : Bool

/-- Python truthiness of an optional string (`None` and the empty string
are falsy). -/
def truthyOptStr : Option String → Bool
  | Option.none => false
  | some s => s ≠ ""

/-- The uvicorn keyword arguments `WebServer.run` assembles: either a Unix
socket bind, or a TCP bind with TLS material present only when both the
certificate and the key path are configured. -/
inductive BindPlan where
  | unixSocket (path : String)
  | tcp (host : String) (port : Nat) (tls : Option (String × String))
deriving DecidableEq

/-- Embedding of the bind-mode selection in `WebServer.run`
(src/sek8s/server.py lines 26-50): no error path exists — when exactly one
TLS artifact is configured the TLS branch is simply skipped and a plain
TCP plan is produced. -/
def runBindPlan (config : ServerConfig) : BindPlan :=
  if truthyOptStr config.uds_path then
    .unixSocket (config.uds_path.getD "")
  else
    .tcp config.bind_address config.port
      (match config.tls_cert_path, config.tls_key_path with
       | some cert, some key =>
         if cert ≠ "" ∧ key ≠ "" then some (cert, key) else Option.none
       | _, _ => Option.none)

/-- Host uvicorn binds when no `host` keyword argument reaches it. -/
def UVICORN_DEFAULT_HOST : String := "127.0.0.1"

/-- Port uvicorn binds when no `port` keyword argument reaches it. -/
def UVICORN_DEFAULT_PORT : Nat := 8000

/-- Outcome of the `uvicorn.run` call at the end of `WebServer.run`:
either uvicorn is invoked with some bind plan and log level, or the
argument expression raises `TypeError` before uvicorn is ever called. -/
inductive RunResult where
  | launched (plan : BindPlan) (logLevel : String)
  | typeError
deriving DecidableEq

/-- Embedding of the whole of `WebServer.run` (src/sek8s/server.py lines
26-50).  Lines 28-44 assemble `uvicorn_kwargs` (modelled by
`runBindPlan`); the call on lines 46-50 is missing a comma before
`**uvicorn_kwargs`, so Python parses the argument as
`log_level=("debug" if config.debug else "info" ** uvicorn_kwargs)`:
with debug on, the conditional short-circuits to `"debug"` and the
assembled kwargs are discarded, so uvicorn serves plaintext TCP on its
defaults; with debug off, `"info" ** uvicorn_kwargs` raises `TypeError`
for every configuration before uvicorn is called. -/
def run (config : ServerConfig) : RunResult :=
  let _uvicornKwargs := runBindPlan config
  if config.debug then
    .launched (.tcp UVICORN_DEFAULT_HOST UVICORN_DEFAULT_PORT Option.none) "debug"
  else
    .typeError

end Sek8s.WebServer

namespace Sek8s.AttestationService

/-- The routes registered by `AttestationServer._setup_routes`
(src/sek8s/services/attestation.py lines 16-20), as method-path pairs. -/
def attestationRoutes : List (String × String) :=
  [("GET", "/attest"), ("GET", "/tdx/quote"), ("GET", "/nvtrust/evidence")]

end Sek8s.AttestationService

namespace Sek8s.NvEvidenceService

open Sek8s.Opa

/-- Result of the `chutes-nvevidence gather-evidence` child process as read
by `NvEvidenceServer.get_evidence`. -/
structure CmdResult where
  returncode : Int
  stdout : String

/-- What the handler produces: a Python value serialised as the JSON body,
or an `HTTPException` with a status code and detail. -/
inductive HandlerResult where
  | value (v : PyVal)
  | httpError (status : Nat) (detail : String)

/-- Embedding of `NvEvidenceServer.get_evidence`
(src/sek8s/services/nv_evidence.py lines 17-49): on exit code 0 the
handler executes a bare `return` — the `json.loads(result.stdout)` line
after it is dead code — so the response value is Python `None`; on a
non-zero exit it raises HTTP 500. -/
def get_evidence (result : CmdResult) : HandlerResult :=
  if result.returncode = 0 then
    .value .none
  else
    .httpError 500 "Failed to gather evidence."

end Sek8s.NvEvidenceService

namespace Sek8s.Proxy

/-- Default external port (`EXTERNAL_PORT`, default 8443). -/
def EXTERNAL_PORT : Nat := 8443

/-- Default internal port (`INTERNAL_PORT`, default 8444). -/
def INTERNAL_PORT : Nat := 8444

/-- Nonce freshness window (`NONCE_MAX_AGE_SECONDS`). -/
def NONCE_MAX_AGE_SECONDS : Int := 30

/-- Health-check failure threshold (`MAX_CONSECUTIVE_FAILURES`). -/
def MAX_CONSECUTIVE_FAILURES : Nat := 5

/-- An `HTTPException` raised by the proxy: status code and detail text. -/
structure HttpErr where
  status : Nat
  detail : String
deriving DecidableEq

/-- One incoming request as `verify_auth` sees it: the port the request
arrived on, the three optional authentication headers, the body SHA-256
computed by the middleware (absent for GET/DELETE or an empty body), and
the URL path. -/
structure AuthRequest where
  serverPort : Nat
  validator : Option String
  nonce : Option String
  signature : Option String
  bodySha256 : Option String
  urlPath : String

/-- The `purpose` component of the signed message: the body SHA-256 when
the middleware stored a truthy one, else the request URL path. -/
def purposeOf (req : AuthRequest) : String :=
  match req.bodySha256 with
  | some b => if b ≠ "" then b else req.urlPath
  | Option.none => req.urlPath

/-- Embedding of `AttestationProxyServer._verify_validator_signature`
(src/sek8s/services/attestation_proxy.py lines 260-344).  `verify`
abstracts `Keypair(ss58_address=validator).verify` for the SR25519 scheme:
it receives the signed message and the hex-decoded signature bytes.  A
`False` verdict surfaces as 401 `Signature verification failed` because
the 401 `Invalid signature` exception raised inside the `try` block is
itself caught by the generic `except Exception` handler. -/
def verifyValidatorSignature (verify : String → List Nat → Bool)
    (allowedValidatorHotkeys : List String) (now : Int)
    (validator nonce signature purpose : String) : Except HttpErr Bool :=
  if validator ∉ allowedValidatorHotkeys then
    .error ⟨403, "Validator not authorized"⟩
  else
    match pyParseInt nonce with
    | Option.none => .error ⟨401, "Invalid nonce format (must be Unix timestamp)"⟩
    | some nonceTimestamp =>
      let age := now - nonceTimestamp
      if NONCE_MAX_AGE_SECONDS ≤ age then
        .error ⟨401, "Nonce expired (age: " ++ toString age ++ "s, max: " ++
          toString NONCE_MAX_AGE_SECONDS ++ "s)"⟩
      else if age < 0 then
        .error ⟨401, "Invalid nonce (future timestamp)"⟩
      else
        let signatureString := validator ++ ":" ++ nonce ++ ":" ++ purpose
        match bytesFromHex signature with
        | Option.none => .error ⟨401, "Invalid signature format (must be hex)"⟩
        | some signatureBytes =>
          if verify signatureString signatureBytes then .ok true
          else .error ⟨401, "Signature verification failed"⟩

/-- Embedding of `AttestationProxyServer.verify_auth` (same file,
lines 202-258): external port requires all three headers present and
truthy then delegates to the signature check, internal port always
succeeds, any other port is 403. -/
def verify_auth (verify : String → List Nat → Bool)
    (allowedValidatorHotkeys : List String) (now : Int)
    (req : AuthRequest) : Except HttpErr Bool :=
  if req.serverPort = EXTERNAL_PORT then
    match req.validator, req.nonce, req.signature with
    | some validator, some nonce, some signature =>
      if validator ≠ "" ∧ nonce ≠ "" ∧ signature ≠ "" then
        verifyValidatorSignature verify allowedValidatorHotkeys now
          validator nonce signature (purposeOf req)
      else
        .error ⟨401, "External requests require: X-Validator-Hotkey, X-Nonce, X-Signature"⟩
    | _, _, _ =>
      .error ⟨401, "External requests require: X-Validator-Hotkey, X-Nonce, X-Signature"⟩
  else if req.serverPort = INTERNAL_PORT then
    .ok true
  else
    .error ⟨403, "Request on invalid port: " ++ toString req.serverPort⟩

/-- Health response of `AttestationProxyServer.health_check`: a 503 plain
text body or the 200 status dict. -/
inductive HealthResp where
  | unhealthy (body : String)
  | healthy (socketValid : Bool) (consecutiveFailures : Nat)
deriving DecidableEq

/-- HTTP status code of a health response. -/
def healthStatus : HealthResp → Nat
  | .unhealthy _ => 503
  | .healthy _ _ => 200

/-- Embedding of `AttestationProxyServer.health_check`
(src/sek8s/services/attestation_proxy.py lines 159-188): an invalid socket
file wins over everything, then the failure threshold, then healthy. -/
def health_check (socketValid : Bool) (consecutiveFailures : Nat) : HealthResp :=
  if socketValid = false then
    .unhealthy "unhealthy: unix socket unavailable"
  else if MAX_CONSECUTIVE_FAILURES ≤ consecutiveFailures then
    .unhealthy ("unhealthy: " ++ toString consecutiveFailures ++
      " consecutive socket failures")
  else
    .healthy socketValid consecutiveFailures

/-- Outcome of one attempt of `proxy_request` against its upstream. -/
inductive ProxyOutcome where
  | success
  | connectError
  | requestError
  | unexpectedError

/-- Effect of one `proxy_request` attempt on the consecutive-failure
counter (src/sek8s/services/attestation_proxy.py lines 431-511): a success
over the Unix socket resets it to zero, every failure kind over the Unix
socket increments it, and calls not using the Unix socket never touch it. -/
def proxyStep (useUnixSocket : Bool) (failures : Nat) : ProxyOutcome → Nat
  | .success => if useUnixSocket then 0 else failures
  | .connectError => if useUnixSocket then failures + 1 else failures
  | .requestError => if useUnixSocket then failures + 1 else failures
  | .unexpectedError => if useUnixSocket then failures + 1 else failures

end Sek8s.Proxy

namespace Sek8s

/-- The stripped string is a prefix of the input with its leading
whitespace dropped. -/
theorem pyStripL_prefix (cs : List Char) :
    pyStripL cs <+: cs.dropWhile pyWhitespace := by
  unfold pyStripL
  conv_rhs => rw [← List.reverse_reverse (cs.dropWhile pyWhitespace)]
  exact List.reverse_prefix.mpr (List.dropWhile_suffix pyWhitespace)

/-- When the first character is not whitespace and the stripped string has
at least two characters, stripping keeps the first two characters. -/
theorem pyStripL_keeps_two (c₁ c₂ : Char) (cs : List Char)
    (h₁ : pyWhitespace c₁ = false)
    (hlen : 2 ≤ (pyStripL (c₁ :: c₂ :: cs)).length) :
    ∃ t, pyStripL (c₁ :: c₂ :: cs) = c₁ :: c₂ :: t := by
  have hpre := pyStripL_prefix (c₁ :: c₂ :: cs)
  rw [List.dropWhile_cons, h₁] at hpre
  simp only [Bool.false_eq_true, if_false] at hpre
  obtain ⟨u, hu⟩ := hpre
  match hL : pyStripL (c₁ :: c₂ :: cs) with
  | [] => rw [hL] at hlen; simp at hlen
  | [a] => rw [hL] at hlen; simp at hlen
  | a :: b :: t =>
    rw [hL] at hu
    simp only [List.cons_append, List.cons.injEq] at hu
    exact ⟨t, by rw [hu.1, hu.2.1]⟩

end Sek8s

namespace Sek8s.Claims

open Sek8s Sek8s.Gpu Sek8s.NvEvidenceUtil Sek8s.CloudInit Sek8s.Opa
open Sek8s.Admission Sek8s.WebServer Sek8s.AttestationService
open Sek8s.NvEvidenceService Sek8s.Proxy

/-- C2: the claim says the Generic Web-Server Base fails fast at startup
when no Unix socket is configured and exactly one of the TLS certificate
and key paths is set.  No such check exists in `WebServer.run`: the kwargs
assembly silently drops the lone TLS artifact and selects a plaintext TCP
bind for both one-sided configurations; and the `uvicorn.run` call is
broken independently of TLS by the missing comma before
`**uvicorn_kwargs` — with debug on, the one-sided-TLS configuration is
launched as plaintext TCP on the uvicorn defaults (the kwargs are
discarded), and with debug off, startup raises `TypeError` identically
for the one-sided, the fully-TLS and the TLS-free configurations, so the
failure is not the claimed TLS consistency check. -/
theorem C2_theorem :
    runBindPlan
      { uds_path := Option.none, bind_address := "0.0.0.0", port := 8443,
        tls_cert_path := some "/etc/tls/cert.pem", tls_key_path := Option.none,
        debug := true }
      = .tcp "0.0.0.0" 8443 Option.none ∧
    runBindPlan
      { uds_path := Option.none, bind_address := "0.0.0.0", port := 8443,
        tls_cert_path := Option.none, tls_key_path := some "/etc/tls/key.pem",
        debug := true }
      = .tcp "0.0.0.0" 8443 Option.none ∧
    run
      { uds_path := Option.none, bind_address := "0.0.0.0", port := 8443,
        tls_cert_path := some "/etc/tls/cert.pem", tls_key_path := Option.none,
        debug := true }
      = .launched (.tcp "127.0.0.1" 8000 Option.none) "debug" ∧
    run
      { uds_path := Option.none, bind_address := "0.0.0.0", port := 8443,
        tls_cert_path := some "/etc/tls/cert.pem", tls_key_path := Option.none,
        debug := false }
      = .typeError ∧
    run
      { uds_path := Option.none, bind_address := "0.0.0.0", port := 8443,
        tls_cert_path := some "/etc/tls/cert.pem",
        tls_key_path := some "/etc/tls/key.pem", debug := false }
      = .typeError ∧
    run
      { uds_path := Option.none, bind_address := "0.0.0.0", port := 8443,
        tls_cert_path := Option.none, tls_key_path := Option.none,
        debug := false }
      = .typeError :=
  ⟨rfl, rfl, rfl, rfl, rfl, rfl⟩

/-- C3: the claim says the Attestation Server exposes a `GET /devices`
route.  The route table registered by `AttestationServer._setup_routes`
contains no `/devices` path at all (only `/attest`, `/tdx/quote` and
`/nvtrust/evidence`), so such a request is met by the framework's 404. -/
theorem C3_theorem :
    attestationRoutes.all (fun r => r.2 != "/devices") = true ∧
    (attestationRoutes.map Prod.snd).contains "/devices" = false := by
  decide

/-- C4: for a policy file whose `opa eval` exits non-zero, the claim says
the aggregate result holds one violation naming the stderr text.
Evaluating the engine at such an outcome shows exactly one violation, but
its text is the generic `Policy evaluation error in <file>` fallback: the
synthetic `{"result": ["Policy evaluation failed: " + stderr]}` value is
fed to a walk that subscripts the string entry with `"expressions"`,
raising `TypeError`, so the stderr-naming message is discarded. -/
theorem C4_theorem :
    evaluate_policies
      [("deny.rego",
        { returncode := 1, stdoutJson := Option.none, stderr := "rego parse error" })]
      = [.str "Policy evaluation error in deny.rego"] ∧
    "Policy evaluation error in deny.rego" ≠
      "Policy evaluation failed: rego parse error" :=
  ⟨rfl, by decide⟩

/-- C8: the claim says the legacy NV-evidence handler returns the JSON
document from the child's stdout on exit code 0.  Evaluating the handler
shows the success branch executes a bare `return` (the stdout parse after
it is dead code), so the response is `None` regardless of stdout, while a
non-zero exit does raise HTTP 500 as claimed. -/
theorem C8_theorem :
    get_evidence { returncode := 0, stdout := "evidence-json" } = .value .none ∧
    get_evidence { returncode := 0, stdout := "other-json" } = .value .none ∧
    get_evidence { returncode := 1, stdout := "" }
      = .httpError 500 "Failed to gather evidence." :=
  ⟨rfl, rfl, rfl⟩

/-- C5: the proxy health check returns 503 with body
`unhealthy: unix socket unavailable` whenever the socket file is invalid;
with a valid socket it returns 503 once the consecutive-failure counter
reaches 5 and 200 below that; every Unix-socket connection failure
increments the counter and every Unix-socket success resets it to zero,
so five consecutive connect failures force 503 and one subsequent success
restores 200. -/
theorem C5_theorem :
    (∀ f : Nat, health_check false f = .unhealthy "unhealthy: unix socket unavailable") ∧
    (∀ f : Nat, 5 ≤ f → healthStatus (health_check true f) = 503) ∧
    (∀ f : Nat, f < 5 → health_check true f = .healthy true f) ∧
    (∀ f : Nat, proxyStep true f .connectError = f + 1 ∧ proxyStep true f .success = 0) ∧
    (∀ f : Nat, healthStatus (health_check true
        (List.foldl (proxyStep true) f (List.replicate 5 .connectError))) = 503) ∧
    (∀ f : Nat, health_check true (proxyStep true f .success) = .healthy true 0) := by
  refine ⟨fun f => rfl, fun f hf => ?_, fun f hf => ?_, fun f => ⟨rfl, rfl⟩,
    fun f => ?_, fun f => rfl⟩
  · simp only [health_check, MAX_CONSECUTIVE_FAILURES]
    rw [if_neg (by simp), if_pos hf]
    rfl
  · simp only [health_check, MAX_CONSECUTIVE_FAILURES]
    rw [if_neg (by simp), if_neg (by omega)]
  · have hfold : List.foldl (proxyStep true) f (List.replicate 5 .connectError) =
        f + 1 + 1 + 1 + 1 + 1 := rfl
    rw [hfold]
    simp only [health_check, MAX_CONSECUTIVE_FAILURES]
    rw [if_neg (by simp), if_pos (by omega)]
    rfl

/-- Witness for C5 at concrete counter values. -/
theorem C5_witness :
    healthStatus (health_check true 5) = 503 ∧
    health_check true 0 = .healthy true 0 :=
  ⟨C5_theorem.2.1 5 (by decide), C5_theorem.2.2.1 0 (by decide)⟩

/-- C10: with no `*.rego` files in the policy directory the OPA engine
returns no violations, and the admission controller therefore allows the
request with `response.allowed = true` and status message `Allowed`,
echoing the request `uid`. -/
theorem C10_theorem :
    evaluate_policies [] = [] ∧
    ∀ (review request uid : PyVal),
      pyGetD review "request" (.dict []) = .ok request →
      pyGetD request "uid" .none = .ok uid →
      validate_request [] review = .ok (true,
        { apiVersion := "admission.k8s.io/v1", kind := "AdmissionReview",
          uid := uid, allowed := true, message := .ok "Allowed" }) := by
  refine ⟨rfl, fun review request uid h₁ h₂ => ?_⟩
  unfold validate_request
  rw [h₁]
  simp only [evaluate_policies, List.foldl]
  rw [h₂]
  simp

/-- Witness for C10 at the empty review object. -/
theorem C10_witness :
    validate_request [] (.dict []) = .ok (true,
      { apiVersion := "admission.k8s.io/v1", kind := "AdmissionReview",
        uid := .none, allowed := true, message := .ok "Allowed" }) :=
  C10_theorem.2 (.dict []) (.dict []) .none rfl rfl

end Sek8s.Claims

namespace Sek8s

/-- Hex encoding produces two characters per byte. -/
theorem hexEncodeBytes_length (bs : List Nat) :
    (hexEncodeBytes bs).length = 2 * bs.length := by
  show (bs.flatMap byteHexChars).length = 2 * bs.length
  induction bs with
  | nil => rfl
  | cons b rest ih =>
    simp only [List.flatMap_cons, List.length_append, List.length_cons, ih, byteHexChars,
      List.length_nil]
    omega

/-- Length of a right-padded string. -/
theorem ljustStr_length (s : String) (w : Nat) (f : Char) :
    (ljustStr s w f).length = max s.length w := by
  unfold ljustStr
  split
  · next h => omega
  · next h =>
    rw [String.length_append]
    have hrep : (⟨List.replicate (w - s.length) f⟩ : String).length = w - s.length := by
      show (List.replicate (w - s.length) f).length = w - s.length
      simp
    rw [hrep]
    omega

end Sek8s

namespace Sek8s.Gpu

/-- Deleting `GPU-` consumes it when it sits at the front of the scan. -/
theorem replaceGPU_cons_prefix (l : List Char) :
    replaceDropAux 'G' ['P', 'U', '-'] ('G' :: 'P' :: 'U' :: '-' :: l) =
      replaceDropAux 'G' ['P', 'U', '-'] l := by
  simp [replaceDropAux, List.isPrefixOf]

/-- The scan for `GPU-` walks over a leading `gpu-` unchanged. -/
theorem replaceGPU_skip_gpu (l : List Char) :
    replaceDropAux 'G' ['P', 'U', '-'] ('g' :: 'p' :: 'u' :: '-' :: l) =
      'g' :: 'p' :: 'u' :: '-' :: replaceDropAux 'G' ['P', 'U', '-'] l := by
  simp [replaceDropAux, List.isPrefixOf]

/-- Deleting `gpu-` consumes it when it sits at the front of the scan. -/
theorem replacegpu_cons_prefix (l : List Char) :
    replaceDropAux 'g' ['p', 'u', '-'] ('g' :: 'p' :: 'u' :: '-' :: l) =
      replaceDropAux 'g' ['p', 'u', '-'] l := by
  simp [replaceDropAux, List.isPrefixOf]

end Sek8s.Gpu

namespace Sek8s.Claims

open Sek8s Sek8s.Gpu Sek8s.NvEvidenceUtil

/-- C6 (amended): nonce canonicalization rejects an input whose trimmed
form is empty or longer than 32 characters, and otherwise returns the hex
encoding of the trimmed UTF-8 bytes right-padded with the zero digit to
64 characters; the result length is `max 64 (2 * utf8-byte-count)` — it is
exactly 64 whenever the trimmed UTF-8 encoding fits in 32 bytes (all ASCII
input), but exceeds 64 for multi-byte input, since the length limit counts
characters while the hex encoding counts bytes. -/
theorem C6_theorem (s : String) :
    (32 < (pyStrip s).length → (validate_and_format_nonce s).isOk = false) ∧
    ((pyStrip s).length = 0 → (validate_and_format_nonce s).isOk = false) ∧
    (0 < (pyStrip s).length → (pyStrip s).length ≤ 32 →
      validate_and_format_nonce s =
        .ok (ljustStr (hexEncodeBytes (utf8Bytes (pyStrip s))) 64 '0') ∧
      (ljustStr (hexEncodeBytes (utf8Bytes (pyStrip s))) 64 '0').length =
        max 64 (2 * (utf8Bytes (pyStrip s)).length)) := by
  refine ⟨fun h => ?_, fun h => ?_, fun h₁ h₂ => ?_⟩
  · simp only [validate_and_format_nonce]
    rw [if_pos h]
    rfl
  · simp only [validate_and_format_nonce]
    rw [if_neg (by omega), if_pos h]
    rfl
  · simp only [validate_and_format_nonce]
    rw [if_neg (by omega), if_neg (by omega)]
    exact ⟨rfl, by rw [ljustStr_length, hexEncodeBytes_length]; omega⟩

/-- Witness for C6 at the ASCII input `abc`, whose result has length
exactly 64. -/
theorem C6_witness :
    validate_and_format_nonce "abc" =
      .ok (ljustStr (hexEncodeBytes (utf8Bytes (pyStrip "abc"))) 64 '0') ∧
    (ljustStr (hexEncodeBytes (utf8Bytes (pyStrip "abc"))) 64 '0').length =
      max 64 (2 * (utf8Bytes (pyStrip "abc")).length) :=
  ( C6_theorem "abc").2.2 (by decide) (by decide)

/-- C6 counterexample: seventeen copies of a two-byte UTF-8 character pass
the 32-character limit but hex-encode to 68 characters, so the claimed
invariant that the result always has length exactly 64 is false. -/
theorem C6_counterexample :
    (pyStrip (⟨List.replicate 17 'é'⟩ : String)).length = 17 ∧
    (validate_and_format_nonce (⟨List.replicate 17 'é'⟩ : String)).map String.length
      = .ok 68 ∧
    (68 : Nat) ≠ 64 :=
  ⟨rfl, rfl, by decide⟩

/-- C9 (amended): GPU-id sanitization deletes the exact substrings `GPU-`
and `gpu-` and every hyphen, so a vendor identifier written with the
upper-case `GPU-` prefix or the lower-case `gpu-` prefix sanitizes to the
same string as the bare identifier; the prefix handling is not
case-insensitive beyond those two spellings. -/
theorem C9_theorem (s : String) :
    sanitize_gpu_id ("GPU-" ++ s) = sanitize_gpu_id s ∧
    sanitize_gpu_id ("gpu-" ++ s) = sanitize_gpu_id s := by
  constructor
  · unfold sanitize_gpu_id replaceDrop
    have hd : ("GPU-" ++ s).data = 'G' :: 'P' :: 'U' :: '-' :: s.data := rfl
    rw [hd, replaceGPU_cons_prefix]
  · unfold sanitize_gpu_id replaceDrop
    have hd : ("gpu-" ++ s).data = 'g' :: 'p' :: 'u' :: '-' :: s.data := rfl
    rw [hd, replaceGPU_skip_gpu, replacegpu_cons_prefix]

/-- C9 counterexample: the mixed-case prefix `Gpu-` is not removed, so the
vendor form and the bare form do not sanitize to the same string, refuting
the claimed case-insensitivity of the prefix removal. -/
theorem C9_counterexample :
    sanitize_gpu_id "Gpu-1234" = "Gpu1234" ∧
    sanitize_gpu_id "Gpu-1234" ≠ sanitize_gpu_id "1234" := by
  constructor
  · simp [sanitize_gpu_id, replaceDrop, replaceDropAux]
  · simp [sanitize_gpu_id, replaceDrop, replaceDropAux]

end Sek8s.Claims

namespace Sek8s.CloudInit

/-- A stripped string that is 64 characters long and entirely hexadecimal
forces the raw string not to start with `0` followed by a non-hex
character (such as `x` or `X`): stripping preserves a non-whitespace
two-character front, and a non-hex character would violate the
all-hexadecimal condition. -/
theorem strip_hex_no_raw_prefix (s : String) (c : Char) (hc : isHexChar c = false)
    (hlen : (pyStrip s).length = 64)
    (hall : (pyStrip s).data.all isHexChar = true) :
    pyStartsWith s ⟨['0', c]⟩ = false := by
  by_contra h
  rw [Bool.not_eq_false] at h
  obtain ⟨t, ht⟩ := List.isPrefixOf_iff_prefix.mp h
  have hdata : s.data = '0' :: c :: t := ht.symm
  have hl2 : 2 ≤ (pyStripL ('0' :: c :: t)).length := by
    have hrfl : (pyStrip s).length = (pyStripL s.data).length := rfl
    rw [hrfl, hdata] at hlen
    omega
  obtain ⟨tt, htt⟩ := pyStripL_keeps_two '0' c t (by decide) hl2
  have hstrip : (pyStrip s).data = '0' :: c :: tt := by
    show pyStripL s.data = _
    rw [hdata, htt]
  rw [hstrip] at hall
  simp [List.all_cons, hc] at hall

/-- An all-hexadecimal character list does not start with `0` followed by
a non-hex character. -/
theorem all_hex_no_prefix (cs : List Char) (c : Char) (hc : isHexChar c = false)
    (hall : cs.all isHexChar = true) :
    ['0', c].isPrefixOf cs = false := by
  by_contra h
  rw [Bool.not_eq_false] at h
  obtain ⟨t, ht⟩ := List.isPrefixOf_iff_prefix.mp h
  rw [← ht] at hall
  simp [List.all_cons, hc] at hall

end Sek8s.CloudInit

namespace Sek8s.Claims

open Sek8s.CloudInit

/-- C7: a write_files content value passes the SS58-path validator exactly
when it is a string whose trimmed form has length in 40..50, consists only
of base58-alphabet characters and starts with `5`; and passes the
seed-path validator exactly when it is a string that does not start with
`0x` or `0X` and whose trimmed form has length exactly 64 and is entirely
hexadecimal. -/
theorem C7_theorem (content : CIContent) :
    (validate_ss58_address content = true ↔
      ∃ s, content = .str s ∧
        40 ≤ (pyStrip s).length ∧ (pyStrip s).length ≤ 50 ∧
        (pyStrip s).data.all (fun c => ss58Chars.contains c) = true ∧
        pyStartsWith (pyStrip s) "5" = true) ∧
    (validate_seed_content content = true ↔
      ∃ s, content = .str s ∧
        pyStartsWith s "0x" = false ∧ pyStartsWith s "0X" = false ∧
        (pyStrip s).length = 64 ∧
        (pyStrip s).data.all isHexChar = true) := by
  constructor
  · cases content with
    | notStr => simp [validate_ss58_address]
    | str a =>
      simp only [validate_ss58_address, CIContent.str.injEq]
      constructor
      · intro h
        split_ifs at h with h₁ h₂ h₃
        simp only [Bool.or_eq_true, decide_eq_true_eq, not_or, not_lt] at h₁
        exact ⟨a, rfl, h₁.1, h₁.2, h₂, h₃⟩
      · rintro ⟨s, hseq, h40, h50, hall, hstart⟩
        subst hseq
        split_ifs with h₁
        · simp only [Bool.or_eq_true, decide_eq_true_eq] at h₁
          omega
        · rfl
  · cases content with
    | notStr => simp [validate_seed_content]
    | str a =>
      simp only [validate_seed_content, CIContent.str.injEq]
      constructor
      · intro h
        split_ifs at h with h₁ h₂ h₃
        simp only [Bool.and_eq_true, decide_eq_true_eq] at h₃
        refine ⟨a, rfl,
          strip_hex_no_raw_prefix a 'x' (by decide) h₂ h₃.2,
          strip_hex_no_raw_prefix a 'X' (by decide) h₂ h₃.2,
          h₂, h₃.2⟩
      · rintro ⟨s, hseq, h0x, h0X, hlen, hall⟩
        subst hseq
        split_ifs with h₁ h₂
        · have hx : pyStartsWith (pyStrip a) "0x" = false :=
            all_hex_no_prefix (pyStrip a).data 'x' (by decide) hall
          have hX : pyStartsWith (pyStrip a) "0X" = false :=
            all_hex_no_prefix (pyStrip a).data 'X' (by decide) hall
          rw [hx, hX] at h₁
          simp at h₁
        · rfl
        · apply absurd ?_ h₂
          simp only [Bool.and_eq_true, decide_eq_true_eq]
          refine ⟨?_, hall⟩
          have hdlen : (pyStrip a).data.length = 64 := hlen
          intro hemp
          rw [List.isEmpty_iff] at hemp
          rw [hemp] at hdlen
          simp at hdlen

/-- Witness for C7 at a concrete valid SS58 address and a concrete valid
seed. -/
theorem C7_witness :
    validate_ss58_address (.str "5AAAAAAAAAAAAAAAAAAAAAAAAAAAAAAAAAAAAAAAAAAAAAAA") = true ∧
    validate_seed_content
      (.str "aaaaaaaaaaaaaaaaaaaaaaaaaaaaaaaaaaaaaaaaaaaaaaaaaaaaaaaaaaaaaaaa") = true :=
  ⟨(C7_theorem (.str "5AAAAAAAAAAAAAAAAAAAAAAAAAAAAAAAAAAAAAAAAAAAAAAA")).1.mpr
      ⟨"5AAAAAAAAAAAAAAAAAAAAAAAAAAAAAAAAAAAAAAAAAAAAAAA", rfl,
        by decide, by decide, by decide, by decide⟩,
    (C7_theorem (.str "aaaaaaaaaaaaaaaaaaaaaaaaaaaaaaaaaaaaaaaaaaaaaaaaaaaaaaaaaaaaaaaa")).2.mpr
      ⟨"aaaaaaaaaaaaaaaaaaaaaaaaaaaaaaaaaaaaaaaaaaaaaaaaaaaaaaaaaaaaaaaa", rfl,
        by decide, by decide, by decide, by decide⟩⟩

end Sek8s.Claims

namespace Sek8s.Proxy

/-- A validator outside the allowlist is rejected with 403. -/
theorem vvs_not_allowed (verify : String → List Nat → Bool)
    (allowed : List String) (now : Int) (v n sig purpose : String)
    (h : v ∉ allowed) :
    verifyValidatorSignature verify allowed now v n sig purpose =
      .error ⟨403, "Validator not authorized"⟩ := by
  unfold verifyValidatorSignature
  rw [if_pos h]

/-- A nonce that does not parse as an integer is rejected with 401. -/
theorem vvs_bad_nonce (verify : String → List Nat → Bool)
    (allowed : List String) (now : Int) (v n sig purpose : String)
    (hmem : v ∈ allowed) (hp : pyParseInt n = Option.none) :
    verifyValidatorSignature verify allowed now v n sig purpose =
      .error ⟨401, "Invalid nonce format (must be Unix timestamp)"⟩ := by
  unfold verifyValidatorSignature
  rw [if_neg (by simp [hmem]), hp]

/-- A nonce at least 30 seconds old is rejected with 401 as expired. -/
theorem vvs_expired (verify : String → List Nat → Bool)
    (allowed : List String) (now : Int) (v n sig purpose : String) (t : Int)
    (hmem : v ∈ allowed) (hp : pyParseInt n = some t) (hage : 30 ≤ now - t) :
    verifyValidatorSignature verify allowed now v n sig purpose =
      .error ⟨401, "Nonce expired (age: " ++ toString (now - t) ++ "s, max: 30s)"⟩ := by
  unfold verifyValidatorSignature
  rw [if_neg (by simp [hmem]), hp]
  simp only [NONCE_MAX_AGE_SECONDS]
  rw [if_pos hage]
  have h30 : toString (30 : Int) = "30" := by decide
  rw [h30]
  simp [String.append_assoc]

/-- A nonce from the future is rejected with 401. -/
theorem vvs_future (verify : String → List Nat → Bool)
    (allowed : List String) (now : Int) (v n sig purpose : String) (t : Int)
    (hmem : v ∈ allowed) (hp : pyParseInt n = some t) (hage : now - t < 0) :
    verifyValidatorSignature verify allowed now v n sig purpose =
      .error ⟨401, "Invalid nonce (future timestamp)"⟩ := by
  unfold verifyValidatorSignature
  rw [if_neg (by simp [hmem]), hp]
  simp only [NONCE_MAX_AGE_SECONDS]
  rw [if_neg (by omega), if_pos hage]

/-- A signature that does not hex-decode is rejected with 401. -/
theorem vvs_bad_hex (verify : String → List Nat → Bool)
    (allowed : List String) (now : Int) (v n sig purpose : String) (t : Int)
    (hmem : v ∈ allowed) (hp : pyParseInt n = some t)
    (h₀ : 0 ≤ now - t) (h₁ : now - t < 30)
    (hh : bytesFromHex sig = Option.none) :
    verifyValidatorSignature verify allowed now v n sig purpose =
      .error ⟨401, "Invalid signature format (must be hex)"⟩ := by
  unfold verifyValidatorSignature
  rw [if_neg (by simp [hmem]), hp]
  simp only [NONCE_MAX_AGE_SECONDS]
  rw [if_neg (by omega), if_neg (by omega), hh]

/-- A signature that hex-decodes but fails cryptographic verification is
rejected with 401. -/
theorem vvs_bad_sig (verify : String → List Nat → Bool)
    (allowed : List String) (now : Int) (v n sig purpose : String)
    (t : Int) (bs : List Nat)
    (hmem : v ∈ allowed) (hp : pyParseInt n = some t)
    (h₀ : 0 ≤ now - t) (h₁ : now - t < 30)
    (hh : bytesFromHex sig = some bs)
    (hv : verify (v ++ ":" ++ n ++ ":" ++ purpose) bs = false) :
    verifyValidatorSignature verify allowed now v n sig purpose =
      .error ⟨401, "Signature verification failed"⟩ := by
  unfold verifyValidatorSignature
  rw [if_neg (by simp [hmem]), hp]
  simp only [NONCE_MAX_AGE_SECONDS]
  rw [if_neg (by omega), if_neg (by omega), hh]
  simp [hv]

/-- The signature check succeeds exactly when the validator is allowlisted,
the nonce is a fresh integer timestamp and the hex-decoded signature
verifies over `validator:nonce:purpose`. -/
theorem vvs_ok_iff (verify : String → List Nat → Bool)
    (allowed : List String) (now : Int) (v n sig purpose : String) :
    verifyValidatorSignature verify allowed now v n sig purpose = .ok true ↔
      (v ∈ allowed ∧
        (∃ t, pyParseInt n = some t ∧ 0 ≤ now - t ∧ now - t < 30) ∧
        (∃ bs, bytesFromHex sig = some bs ∧
          verify (v ++ ":" ++ n ++ ":" ++ purpose) bs = true)) := by
  unfold verifyValidatorSignature
  split_ifs with hmem
  · cases hp : pyParseInt n with
    | none => simp [hp, hmem]
    | some t =>
      dsimp only
      simp only [NONCE_MAX_AGE_SECONDS]
      split_ifs with hage₁ hage₂
      · constructor
        · intro h
          simp at h
        · rintro ⟨-, ⟨t₂, ht₂, h₀, h₁⟩, -⟩
          rw [Option.some.injEq] at ht₂
          subst ht₂
          omega
      · constructor
        · intro h
          simp at h
        · rintro ⟨-, ⟨t₂, ht₂, h₀, h₁⟩, -⟩
          rw [Option.some.injEq] at ht₂
          subst ht₂
          omega
      · cases hh : bytesFromHex sig with
        | none =>
          simp
        | some bs =>
          dsimp only
          split_ifs with hv
          · constructor
            · intro _
              exact ⟨hmem, ⟨t, rfl, by omega, by omega⟩, ⟨bs, rfl, hv⟩⟩
            · intro _
              rfl
          · constructor
            · intro h
              simp at h
            · rintro ⟨-, -, bs₂, hbs₂, hv₂⟩
              rw [Option.some.injEq] at hbs₂
              subst hbs₂
              exact absurd hv₂ hv
  · simp [hmem]

end Sek8s.Proxy

namespace Sek8s.Claims

open Sek8s Sek8s.Proxy

/-- C1: on the external port, authentication succeeds exactly when the
three headers are present and non-empty, the validator is in the
allowlist, the nonce is an integer whose age lies in `[0, 30)`, and the
hex-decoded signature verifies over `validator:nonce:purpose`; each
failure mode yields 401 except an allowlist miss, which yields 403.  On
the internal port authentication succeeds with none of these checks. -/
theorem C1_theorem (verify : String → List Nat → Bool)
    (allowed : List String) (now : Int) (req : AuthRequest) :
    (req.serverPort = INTERNAL_PORT →
      verify_auth verify allowed now req = .ok true) ∧
    (req.serverPort = EXTERNAL_PORT →
      ((verify_auth verify allowed now req = .ok true ↔
        ∃ v n sig, req.validator = some v ∧ req.nonce = some n ∧
          req.signature = some sig ∧ v ≠ "" ∧ n ≠ "" ∧ sig ≠ "" ∧
          v ∈ allowed ∧
          (∃ t, pyParseInt n = some t ∧ 0 ≤ now - t ∧ now - t < 30) ∧
          (∃ bs, bytesFromHex sig = some bs ∧
            verify (v ++ ":" ++ n ++ ":" ++ purposeOf req) bs = true)) ∧
      ((¬ ∃ v n sig, req.validator = some v ∧ req.nonce = some n ∧
          req.signature = some sig ∧ v ≠ "" ∧ n ≠ "" ∧ sig ≠ "") →
        verify_auth verify allowed now req =
          .error ⟨401,
            "External requests require: X-Validator-Hotkey, X-Nonce, X-Signature"⟩) ∧
      (∀ v n sig, req.validator = some v → req.nonce = some n →
        req.signature = some sig → v ≠ "" → n ≠ "" → sig ≠ "" →
        (v ∉ allowed →
          verify_auth verify allowed now req =
            .error ⟨403, "Validator not authorized"⟩) ∧
        (v ∈ allowed → pyParseInt n = Option.none →
          verify_auth verify allowed now req =
            .error ⟨401, "Invalid nonce format (must be Unix timestamp)"⟩) ∧
        (∀ t, v ∈ allowed → pyParseInt n = some t →
          (30 ≤ now - t →
            verify_auth verify allowed now req =
              .error ⟨401, "Nonce expired (age: " ++ toString (now - t) ++
                "s, max: 30s)"⟩) ∧
          (now - t < 0 →
            verify_auth verify allowed now req =
              .error ⟨401, "Invalid nonce (future timestamp)"⟩) ∧
          (0 ≤ now - t → now - t < 30 →
            (bytesFromHex sig = Option.none →
              verify_auth verify allowed now req =
                .error ⟨401, "Invalid signature format (must be hex)"⟩) ∧
            (∀ bs, bytesFromHex sig = some bs →
              verify (v ++ ":" ++ n ++ ":" ++ purposeOf req) bs = false →
              verify_auth verify allowed now req =
                .error ⟨401, "Signature verification failed"⟩)))))) := by
  refine ⟨fun hport => ?_, fun hport => ?_⟩
  · unfold verify_auth
    rw [hport]
    rw [if_neg (by decide), if_pos rfl]
  · have hext : verify_auth verify allowed now req =
        (match req.validator, req.nonce, req.signature with
         | some v, some n, some s =>
           if v ≠ "" ∧ n ≠ "" ∧ s ≠ "" then
             verifyValidatorSignature verify allowed now v n s (purposeOf req)
           else .error ⟨401,
             "External requests require: X-Validator-Hotkey, X-Nonce, X-Signature"⟩
         | _, _, _ => .error ⟨401,
             "External requests require: X-Validator-Hotkey, X-Nonce, X-Signature"⟩) := by
      unfold verify_auth
      rw [hport]
      rw [if_pos rfl]
    rw [hext]
    cases hval : req.validator with
    | none =>
      refine ⟨by simp, fun _ => rfl, fun v n sig hv hn hs => ?_⟩
      exact absurd hv (by simp)
    | some v =>
      cases hnon : req.nonce with
      | none =>
        refine ⟨by simp, fun _ => rfl, fun v₂ n sig hv hn hs => ?_⟩
        exact absurd hn (by simp)
      | some n =>
        cases hsig : req.signature with
        | none =>
          refine ⟨by simp, fun _ => rfl, fun v₂ n₂ sig hv hn hs => ?_⟩
          exact absurd hs (by simp)
        | some s =>
          dsimp only
          by_cases hne : v ≠ "" ∧ n ≠ "" ∧ s ≠ ""
          · rw [if_pos hne]
            refine ⟨?_, ?_, ?_⟩
            · simp only [Option.some.injEq]
              constructor
              · intro h
                exact ⟨v, n, s, rfl, rfl, rfl, hne.1, hne.2.1, hne.2.2,
                  ((vvs_ok_iff verify allowed now v n s (purposeOf req)).mp h).1,
                  ((vvs_ok_iff verify allowed now v n s (purposeOf req)).mp h).2.1,
                  ((vvs_ok_iff verify allowed now v n s (purposeOf req)).mp h).2.2⟩
              · rintro ⟨v₂, n₂, s₂, hv₂, hn₂, hs₂, -, -, -, hmem, ht, hbs⟩
                subst hv₂
                subst hn₂
                subst hs₂
                exact (vvs_ok_iff verify allowed now v n s (purposeOf req)).mpr
                  ⟨hmem, ht, hbs⟩
            · intro hmiss
              exact absurd ⟨v, n, s, rfl, rfl, rfl, hne.1, hne.2.1, hne.2.2⟩ hmiss
            · rintro v₂ n₂ s₂ hv₂ hn₂ hs₂ hv₂ne hn₂ne hs₂ne
              rw [Option.some.injEq] at hv₂ hn₂ hs₂
              subst hv₂
              subst hn₂
              subst hs₂
              refine ⟨fun hnot => vvs_not_allowed _ _ _ _ _ _ _ hnot,
                fun hmem hp => vvs_bad_nonce _ _ _ _ _ _ _ hmem hp,
                fun t hmem hp => ⟨fun hage => ?_,
                  fun hage => vvs_future _ _ _ _ _ _ _ _ hmem hp hage,
                  fun h₀ h₁ => ⟨fun hh => vvs_bad_hex _ _ _ _ _ _ _ _ hmem hp h₀ h₁ hh,
                    fun bs hh hverr =>
                      vvs_bad_sig _ _ _ _ _ _ _ _ _ hmem hp h₀ h₁ hh hverr⟩⟩⟩
              exact vvs_expired verify allowed now v n s (purposeOf req) t
                hmem hp hage
          · rw [if_neg hne]
            refine ⟨?_, fun _ => rfl, ?_⟩
            · simp only [Option.some.injEq]
              constructor
              · intro h
                simp at h
              · rintro ⟨v₂, n₂, s₂, hv₂, hn₂, hs₂, hv₂ne, hn₂ne, hs₂ne, -⟩
                subst hv₂
                subst hn₂
                subst hs₂
                exact absurd ⟨hv₂ne, hn₂ne, hs₂ne⟩ hne
            · rintro v₂ n₂ s₂ hv₂ hn₂ hs₂ hv₂ne hn₂ne hs₂ne
              rw [Option.some.injEq] at hv₂ hn₂ hs₂
              subst hv₂
              subst hn₂
              subst hs₂
              exact absurd ⟨hv₂ne, hn₂ne, hs₂ne⟩ hne

/-- Witness for C1: an internal-port request with no headers at all is
authenticated. -/
theorem C1_witness :
    verify_auth (fun _ _ => false) [] 0
      { serverPort := 8444, validator := Option.none, nonce := Option.none,
        signature := Option.none, bodySha256 := Option.none,
        urlPath := "/attest" } = .ok true :=
  (C1_theorem (fun _ _ => false) [] 0
    { serverPort := 8444, validator := Option.none, nonce := Option.none,
      signature := Option.none, bodySha256 := Option.none,
      urlPath := "/attest" }).1 rfl

end Sek8s.Claims

namespace Sek8s.Claims

/-- Witness for C9 at a concrete identifier. -/
theorem C9_witness :
    Sek8s.Gpu.sanitize_gpu_id ("GPU-" ++ "d52bd152-0847") =
      Sek8s.Gpu.sanitize_gpu_id "d52bd152-0847" :=
  ( C9_theorem "d52bd152-0847").1

end Sek8s.Claims
